import Mathlib

/-!
Shallow embedding of `dive_profile_calculator/profile.py` (dive profile
descriptor: ambient pressure, segment derivation, profile loading, and the
SSI / GUE ascent planners), with theorems checking the specification's
claims against it.

Python floats are modelled as exact rationals (`ℚ`), `datetime.timedelta`
as a duration counted in rational seconds, and a raised `RuntimeError` as
the `Except.error` branch of `Except String`.
-/

namespace DiveProfileCalculator

/-- Model of `datetime.timedelta`: a signed duration, stored in seconds. -/
structure Timedelta where
  seconds : ℚ
deriving DecidableEq, Repr

/-- Model of `dt.timedelta(seconds=s)`. -/
def Timedelta.ofSeconds (s : ℚ) : Timedelta := ⟨s⟩

/-- Model of `dt.timedelta(minutes=m)`. -/
def Timedelta.ofMinutes (m : ℚ) : Timedelta := ⟨m * 60⟩

/-- Addition `timedelta + timedelta`. -/
def Timedelta.add (a b : Timedelta) : Timedelta := ⟨a.seconds + b.seconds⟩

/-- Subtraction `timedelta - timedelta`. -/
def Timedelta.sub (a b : Timedelta) : Timedelta := ⟨a.seconds - b.seconds⟩

/-- Dataclass `DiveProfilePoint`: one instant of the dive profile. -/
structure DiveProfilePoint where
  depth : ℚ
  timestamp : Timedelta
  consumption : ℚ
deriving DecidableEq, Repr

instance : Inhabited DiveProfilePoint := ⟨⟨0, ⟨0⟩, 0⟩⟩

/-- Dataclass `DiveProfileSegment`: derived interval between two consecutive points. -/
structure DiveProfileSegment where
  avg_depth : ℚ
  duration : Timedelta
  avg_consumption : ℚ
deriving DecidableEq, Repr

instance : Inhabited DiveProfileSegment := ⟨⟨0, ⟨0⟩, 0⟩⟩

/-- Classmethod `DiveProfileSegment.from_profile_points`; `np.average([a, b])` is the
arithmetic mean `(a + b) / 2`. -/
def DiveProfileSegment.from_profile_points (first second : DiveProfilePoint) :
    DiveProfileSegment :=
  { avg_depth := (first.depth + second.depth) / 2
    duration := second.timestamp.sub first.timestamp
    avg_consumption := (first.consumption + second.consumption) / 2 }

/-- Dataclass `DiverConfiguration` with its default field values. -/
structure DiverConfiguration where
  gas_volume : ℚ
  gas_pressure : ℚ
  consumption : ℚ := 15
  water_density : ℚ := 1023.6
  gravity_constant : ℚ := 9.80665
deriving DecidableEq, Repr

/-- Dataclass `DiveProfile` with its default field values. -/
structure DiveProfile where
  gas_volume : ℚ
  gas_pressure : ℚ
  profile : List DiveProfilePoint
  water_density : ℚ := 1023.6
  gravity_constant : ℚ := 9.80665
deriving DecidableEq, Repr

/-- Method `DiveProfile.ambient_pressure`:
`(self.water_density * self.gravity_constant * depth) * 1e-5 + 1`. -/
def DiveProfile.ambient_pressure (self : DiveProfile) (depth : ℚ) : ℚ :=
  (self.water_density * self.gravity_constant * depth) * (1 / 100000) + 1

/-- Method `DiveProfile.get_segments`:
`[DiveProfileSegment.from_profile_points(self.profile[idx], self.profile[idx+1])
  for idx in range(len(self.profile) - 1)]`. -/
def DiveProfile.get_segments (self : DiveProfile) : List DiveProfileSegment :=
  (List.range (self.profile.length - 1)).map fun idx =>
    DiveProfileSegment.from_profile_points (self.profile.getD idx default)
      (self.profile.getD (idx + 1) default)

/-- Staticmethod `DiveProfile.compute_ssi_ascent`. Raising `RuntimeError('Trivial ascent')`
is modelled as the error branch. -/
def DiveProfile.compute_ssi_ascent (depth : ℚ) (configuration : DiverConfiguration) :
    Except String (List DiveProfilePoint) :=
  if depth ≤ 0 then Except.error "Trivial ascent"
  else
    let ascent_rate : ℚ := 10
    let stop_duration : ℚ := 3
    let stop_depth : ℚ := 6
    let t0 := Timedelta.ofSeconds 0
    -- 10 m/min to 6 m
    let t1 := t0.add (Timedelta.ofMinutes ((depth - stop_depth) / ascent_rate))
    -- stop
    let t2 := t1.add (Timedelta.ofMinutes stop_duration)
    -- ascent to surface
    let t3 := t2.add (Timedelta.ofMinutes (stop_depth / ascent_rate))
    Except.ok
      [⟨depth, t0, configuration.consumption⟩,
       ⟨stop_depth, t1, configuration.consumption⟩,
       ⟨stop_depth, t2, configuration.consumption⟩,
       ⟨0, t3, configuration.consumption⟩]

/-- The body of the `while depth > 0` loop of `DiveProfile.compute_gue_ascent`:
each iteration emits a 30-second hold point at the current stop depth and,
after a further half minute (3 m at 6 m/min), a point 3 m shallower, then
repeats on the decremented depth. -/
def gueLoop (consumption : ℚ) (depth : ℚ) (current_time : Timedelta) :
    List DiveProfilePoint :=
  if h : 0 < depth then
    -- 30 second stop
    let stop_duration : ℚ := 1 / 2
    let t1 := current_time.add (Timedelta.ofMinutes stop_duration)
    let t2 := t1.add (Timedelta.ofMinutes (3 / 6))
    ⟨depth, t1, consumption⟩ :: ⟨depth - 3, t2, consumption⟩ ::
      gueLoop consumption (depth - 3) t2
  else []
termination_by (⌈depth / 3⌉).toNat
decreasing_by
  have h1 : ⌈(depth - 3) / 3⌉ = ⌈depth / 3⌉ - 1 := by
    have h2 : (depth - 3) / 3 = depth / 3 - (1 : ℤ) := by push_cast; ring
    rw [h2, Int.ceil_sub_int]
  have h3 : 0 < ⌈depth / 3⌉ := Int.ceil_pos.mpr (by positivity)
  omega

/-- Staticmethod `DiveProfile.compute_gue_ascent`. Raising `RuntimeError('Trivial ascent')`
is modelled as the error branch; `np.ceil` on a rational is `Int.ceil`. -/
def DiveProfile.compute_gue_ascent (depth : ℚ) (configuration : DiverConfiguration) :
    Except String (List DiveProfilePoint) :=
  if depth ≤ 0 then Except.error "Trivial ascent"
  else
    let start : DiveProfilePoint :=
      ⟨depth, Timedelta.ofSeconds 0, configuration.consumption⟩
    let deep_ascent_rate : ℚ := 10
    let shallow_ascent_rate : ℚ := 6
    let starting_depth := depth
    let start_time := Timedelta.ofSeconds 0
    if starting_depth < 3 then
      Except.ok
        [start,
         ⟨0, start_time.add (Timedelta.ofMinutes (starting_depth / shallow_ascent_rate)),
          configuration.consumption⟩]
    else
      -- Round depth to deeper 3 m
      let depth2 : ℚ := ((⌈depth / 6⌉ : ℤ) : ℚ) * 3
      let t1 := start_time.add
        (Timedelta.ofMinutes ((starting_depth - depth2) / deep_ascent_rate))
      Except.ok
        (start :: ⟨depth2, t1, configuration.consumption⟩ ::
          gueLoop configuration.consumption depth2 t1)

/-- One loader input entry: an integer second-offset key and the point record
`{depth, consumption}` stored under it. -/
structure ProfileEntry where
  key : ℤ
  depth : ℚ
  consumption : ℚ
deriving DecidableEq, Repr

/-- A well-formed input mapping for `DiveProfile.from_dict`, after schema
validation: the required numeric fields (with the schema's defaults) and the
`profile` mapping as an association list keyed by integer second-offset. -/
structure ProfileDict where
  gas_volume : ℚ
  gas_pressure : ℚ
  water_density : ℚ := 1023.6
  gravity_constant : ℚ := 9.80665
  profile : List ProfileEntry
deriving DecidableEq, Repr

/-- The sort key of `sorted(profile_points, key=lambda x: x.timestamp)`:
compare points by timestamp. -/
def pointLE (a b : DiveProfilePoint) : Prop :=
  a.timestamp.seconds ≤ b.timestamp.seconds

instance : DecidableRel pointLE := fun a b =>
  inferInstanceAs (Decidable (a.timestamp.seconds ≤ b.timestamp.seconds))

instance : IsTotal DiveProfilePoint pointLE :=
  ⟨fun a b => le_total a.timestamp.seconds b.timestamp.seconds⟩

instance : IsTrans DiveProfilePoint pointLE := ⟨fun _ _ _ => le_trans⟩

/-- Classmethod `DiveProfile.from_dict` on a schema-validated input: build one point per
profile entry with `timestamp = dt.timedelta(seconds=key)`, sort the points by
timestamp (Python's `sorted` is a stable sort, so a stable insertion sort
models it exactly), and assemble the `DiveProfile`. -/
def DiveProfile.from_dict (data : ProfileDict) : DiveProfile :=
  let profile_points : List DiveProfilePoint :=
    data.profile.map fun e =>
      ⟨e.depth, Timedelta.ofSeconds (e.key : ℚ), e.consumption⟩
  { gas_volume := data.gas_volume
    gas_pressure := data.gas_pressure
    profile := List.insertionSort pointLE profile_points
    water_density := data.water_density
    gravity_constant := data.gravity_constant }

/-- The GUE ascent for `depth ≥ 3` as the specification describes it: the
start point, the point at stop depth `ceil(depth/6)*3` reached at the deep
rate, then for each of the `ceil(depth/6)` stops a half-minute hold point and
a point 3 m shallower a further half minute later. -/
def gueAscentSpec (depth : ℚ) (configuration : DiverConfiguration) :
    List DiveProfilePoint :=
  let c := configuration.consumption
  let s : ℚ := ((⌈depth / 6⌉ : ℤ) : ℚ) * 3
  let t0 : ℚ := (depth - s) / 10
  let k : ℕ := (⌈depth / 6⌉).toNat
  ⟨depth, Timedelta.ofMinutes 0, c⟩ ::
    ⟨s, Timedelta.ofMinutes t0, c⟩ ::
      ((List.range k).map fun i =>
        [⟨s - 3 * (i : ℚ), Timedelta.ofMinutes (t0 + (2 * (i : ℚ) + 1) * (1 / 2)), c⟩,
         ⟨s - 3 * ((i : ℚ) + 1), Timedelta.ofMinutes (t0 + (2 * (i : ℚ) + 2) * (1 / 2)), c⟩]).flatten

/-- A concrete diver configuration used to instantiate universally
quantified theorems (gas volume 12 l at 200 bar, default consumption and
environmental constants). -/
def cfgExample : DiverConfiguration :=
  { gas_volume := 12, gas_pressure := 200 }

/-- A concrete dive profile used to instantiate universally quantified
theorems. -/
def profileExample : DiveProfile :=
  { gas_volume := 12
    gas_pressure := 200
    profile :=
      [⟨0, Timedelta.ofSeconds 0, 15⟩,
       ⟨10, Timedelta.ofSeconds 60, 15⟩,
       ⟨0, Timedelta.ofSeconds 120, 15⟩] }

@[simp]
lemma Timedelta.ofMinutes_seconds (m : ℚ) : (Timedelta.ofMinutes m).seconds = m * 60 := rfl

@[simp]
lemma Timedelta.ofSeconds_seconds (s : ℚ) : (Timedelta.ofSeconds s).seconds = s := rfl

@[simp]
lemma Timedelta.add_seconds (a b : Timedelta) :
    (a.add b).seconds = a.seconds + b.seconds := rfl

@[simp]
lemma Timedelta.sub_seconds (a b : Timedelta) :
    (a.sub b).seconds = a.seconds - b.seconds := rfl

lemma Timedelta.ext_iff (a b : Timedelta) : a = b ↔ a.seconds = b.seconds := by
  cases a; cases b; simp

@[simp]
lemma Timedelta.ofMinutes_add (m n : ℚ) :
    (Timedelta.ofMinutes m).add (Timedelta.ofMinutes n) = Timedelta.ofMinutes (m + n) := by
  simp [Timedelta.ext_iff]; ring

@[simp]
lemma Timedelta.ofSeconds_zero_add (b : Timedelta) :
    (Timedelta.ofSeconds 0).add b = b := by
  simp [Timedelta.ext_iff]

lemma point_eq {d1 d2 c1 c2 : ℚ} {t1 t2 : Timedelta} (hd : d1 = d2)
    (ht : t1.seconds = t2.seconds) (hc : c1 = c2) :
    (⟨d1, t1, c1⟩ : DiveProfilePoint) = ⟨d2, t2, c2⟩ := by
  cases t1; cases t2; simp_all

lemma gueLoop_eq_nil (c depth : ℚ) (t : Timedelta) (h : depth ≤ 0) :
    gueLoop c depth t = [] := by
  rw [gueLoop, dif_neg (not_lt.mpr h)]

lemma gueLoop_cons (c depth : ℚ) (t : Timedelta) (h : 0 < depth) :
    gueLoop c depth t =
      ⟨depth, t.add (Timedelta.ofMinutes (1 / 2)), c⟩ ::
      ⟨depth - 3,
        (t.add (Timedelta.ofMinutes (1 / 2))).add (Timedelta.ofMinutes (3 / 6)), c⟩ ::
      gueLoop c (depth - 3)
        ((t.add (Timedelta.ofMinutes (1 / 2))).add (Timedelta.ofMinutes (3 / 6))) := by
  rw [gueLoop, dif_pos h]

/-- Closed form of the `while` loop of `compute_gue_ascent` when it starts at
a depth that is `3 * k` metres: it emits, for each stop index `i < k`, a
half-minute hold point and a point 3 m shallower a further half minute
later. -/
lemma gueLoop_eq_blocks (c : ℚ) :
    ∀ (k : ℕ) (t0 : ℚ),
      gueLoop c (3 * (k : ℚ)) (Timedelta.ofMinutes t0) =
        ((List.range k).map fun i =>
          [⟨3 * (k : ℚ) - 3 * (i : ℚ),
            Timedelta.ofMinutes (t0 + (2 * (i : ℚ) + 1) * (1 / 2)), c⟩,
           ⟨3 * (k : ℚ) - 3 * ((i : ℚ) + 1),
            Timedelta.ofMinutes (t0 + (2 * (i : ℚ) + 2) * (1 / 2)), c⟩]).flatten
  | 0, t0 => by
    rw [gueLoop_eq_nil c _ _ (by norm_num)]
    simp
  | (k + 1), t0 => by
    have hpos : (0 : ℚ) < 3 * ((k + 1 : ℕ) : ℚ) := by positivity
    rw [gueLoop_cons c _ _ hpos]
    have hd : 3 * (((k + 1 : ℕ)) : ℚ) - 3 = 3 * (k : ℚ) := by push_cast; ring
    have ht : ((Timedelta.ofMinutes t0).add (Timedelta.ofMinutes (1 / 2))).add
        (Timedelta.ofMinutes (3 / 6)) = Timedelta.ofMinutes (t0 + 1) := by
      simp [Timedelta.ext_iff]; ring
    rw [hd, ht, gueLoop_eq_blocks c k (t0 + 1)]
    rw [List.range_succ_eq_map, List.map_cons, List.flatten_cons, List.map_map]
    rw [List.cons_append, List.cons_append, List.nil_append]
    refine congrArg₂ List.cons ?_ (congrArg₂ List.cons ?_ ?_)
    · exact point_eq (by push_cast; ring) (by simp) rfl
    · exact point_eq (by push_cast; ring) (by simp) rfl
    · refine congrArg List.flatten (List.map_congr_left ?_)
      intro i _
      simp only [Function.comp_apply]
      refine congrArg₂ List.cons ?_ (congrArg₂ List.cons ?_ rfl)
      · exact point_eq (by push_cast; ring) (by simp; ring) rfl
      · exact point_eq (by push_cast; ring) (by simp; ring) rfl

/-- The last point emitted by the `while` loop, when it starts at depth
`3 * k` with `k ≥ 1`: depth exactly 0, one minute per stop elapsed. -/
lemma gueLoop_getLast (c : ℚ) :
    ∀ (k : ℕ) (t : Timedelta), 0 < k →
      (gueLoop c (3 * (k : ℚ)) t).getLast? =
        some ⟨0, t.add (Timedelta.ofMinutes (k : ℚ)), c⟩
  | 0, _, h => absurd h (by simp)
  | (k + 1), t, _ => by
    have hpos : (0 : ℚ) < 3 * ((k + 1 : ℕ) : ℚ) := by positivity
    rw [gueLoop_cons c _ _ hpos]
    have hd : 3 * (((k + 1 : ℕ)) : ℚ) - 3 = 3 * (k : ℚ) := by push_cast; ring
    rw [hd, List.getLast?_cons_cons]
    rcases Nat.eq_zero_or_pos k with hk | hk
    · subst hk
      rw [gueLoop_eq_nil c _ _ (by norm_num)]
      refine congrArg some (point_eq (by push_cast; ring) ?_ rfl)
      simp
      ring
    · rw [List.getLast?_cons, gueLoop_getLast c k _ hk]
      refine congrArg some ?_
      simp only [Option.getD_some]
      refine point_eq rfl ?_ rfl
      simp
      ring

lemma ceil_cast (d : ℚ) (h : 3 ≤ d) :
    (((⌈d / 6⌉).toNat : ℕ) : ℚ) = ((⌈d / 6⌉ : ℤ) : ℚ) := by
  have h0 : (0 : ℚ) < d := by linarith
  have h1 : 0 < ⌈d / 6⌉ := Int.ceil_pos.mpr (by positivity)
  have h2 : ((⌈d / 6⌉).toNat : ℤ) = ⌈d / 6⌉ := Int.toNat_of_nonneg h1.le
  exact_mod_cast congrArg (fun z : ℤ => (z : ℚ)) h2

/-- Shape of `compute_gue_ascent` for `depth ≥ 3`: the start point, the point
at the first stop depth, and the `while` loop started there, with the first
stop depth written as `3 * k` for the natural number `k = ⌈depth/6⌉`. -/
lemma compute_gue_shape (d : ℚ) (cfg : DiverConfiguration) (h : 3 ≤ d) :
    DiveProfile.compute_gue_ascent d cfg =
      Except.ok (⟨d, Timedelta.ofSeconds 0, cfg.consumption⟩ ::
        ⟨3 * (((⌈d / 6⌉).toNat : ℕ) : ℚ),
          Timedelta.ofMinutes ((d - 3 * (((⌈d / 6⌉).toNat : ℕ) : ℚ)) / 10),
          cfg.consumption⟩ ::
        gueLoop cfg.consumption (3 * (((⌈d / 6⌉).toNat : ℕ) : ℚ))
          (Timedelta.ofMinutes ((d - 3 * (((⌈d / 6⌉).toNat : ℕ) : ℚ)) / 10))) := by
  have hd0 : ¬ d ≤ 0 := by linarith
  have hd3 : ¬ d < 3 := not_lt.mpr h
  simp only [DiveProfile.compute_gue_ascent]
  rw [if_neg hd0, if_neg hd3, ceil_cast d h]
  refine congrArg Except.ok ?_
  refine congrArg₂ List.cons rfl (congrArg₂ List.cons ?_ ?_)
  · exact point_eq (by ring) (by simp; ring) rfl
  · exact congrArg₂ (gueLoop cfg.consumption) (by ring)
      (by simp [Timedelta.ext_iff]; ring)

/-- Lemma: `compute_gue_ascent` for `depth ≥ 3` returns exactly the point sequence
the specification describes. -/
lemma compute_gue_eq_spec (d : ℚ) (cfg : DiverConfiguration) (h : 3 ≤ d) :
    DiveProfile.compute_gue_ascent d cfg = Except.ok (gueAscentSpec d cfg) := by
  rw [compute_gue_shape d cfg h]
  refine congrArg Except.ok ?_
  simp only [gueAscentSpec]
  rw [← ceil_cast d h, gueLoop_eq_blocks]
  refine congrArg₂ List.cons (point_eq rfl (by simp) rfl)
    (congrArg₂ List.cons (point_eq (by ring) (by simp; ring) rfl) ?_)
  refine congrArg List.flatten (List.map_congr_left ?_)
  intro i _
  refine congrArg₂ List.cons ?_ (congrArg₂ List.cons ?_ rfl)
  · exact point_eq (by ring) (by simp; ring) rfl
  · exact point_eq (by ring) (by simp; ring) rfl

/-- The `while` loop started at depth `3 * k` emits exactly `2 * k` points
(two per iteration). -/
lemma gueLoop_length (c : ℚ) (k : ℕ) (t0 : ℚ) :
    (gueLoop c (3 * (k : ℚ)) (Timedelta.ofMinutes t0)).length = 2 * k := by
  rw [gueLoop_eq_blocks]
  rw [List.length_flatten, List.map_map]
  simp only [Function.comp_def, List.length_cons, List.length_nil]
  rw [List.map_const', List.sum_replicate, List.length_range, smul_eq_mul]
  ring

/-- C1: for every depth > 0 and every configuration, `compute_ssi_ascent`
returns exactly 4 points with depths `[depth, 6, 6, 0]`, timestamps in
minutes `[0, (depth-6)/10, (depth-6)/10 + 3, (depth-6)/10 + 3.6]`, every
point carrying the configuration's consumption; for `0 < depth < 6` the
second timestamp is negative (not special-cased or clamped). -/
theorem ssi_ascent_four_points (d : ℚ) (cfg : DiverConfiguration) (h : 0 < d) :
    DiveProfile.compute_ssi_ascent d cfg =
      Except.ok
        [⟨d, Timedelta.ofMinutes 0, cfg.consumption⟩,
         ⟨6, Timedelta.ofMinutes ((d - 6) / 10), cfg.consumption⟩,
         ⟨6, Timedelta.ofMinutes ((d - 6) / 10 + 3), cfg.consumption⟩,
         ⟨0, Timedelta.ofMinutes ((d - 6) / 10 + 3.6), cfg.consumption⟩] ∧
    (d < 6 → (Timedelta.ofMinutes ((d - 6) / 10)).seconds < 0) := by
  constructor
  · simp only [DiveProfile.compute_ssi_ascent]
    rw [if_neg (not_le.mpr h)]
    refine congrArg Except.ok ?_
    refine congrArg₂ List.cons (point_eq rfl (by simp) rfl) ?_
    refine congrArg₂ List.cons (point_eq rfl (by simp) rfl) ?_
    refine congrArg₂ List.cons (point_eq rfl (by simp) rfl) ?_
    refine congrArg₂ List.cons (point_eq rfl (by simp; ring) rfl) rfl
  · intro h6
    simp only [Timedelta.ofMinutes_seconds]
    nlinarith

/-- Witness for C1 at depth 30: timestamps 0, 2.4, 5.4 and 6.0 minutes. -/
theorem ssi_ascent_four_points_witness :
    DiveProfile.compute_ssi_ascent 30 cfgExample =
      Except.ok
        [⟨30, Timedelta.ofMinutes 0, 15⟩,
         ⟨6, Timedelta.ofMinutes 2.4, 15⟩,
         ⟨6, Timedelta.ofMinutes 5.4, 15⟩,
         ⟨0, Timedelta.ofMinutes 6, 15⟩] := by
  have h := (ssi_ascent_four_points 30 cfgExample (by norm_num)).1
  rw [h]
  norm_num [cfgExample, Timedelta.ext_iff]

/-- C4: both ascent planners fail with the `Trivial ascent` error exactly
when `depth ≤ 0`, and for `depth > 0` each returns a complete point
sequence. -/
theorem ascent_error_iff (d : ℚ) (cfg : DiverConfiguration) :
    (DiveProfile.compute_ssi_ascent d cfg = Except.error "Trivial ascent" ↔ d ≤ 0) ∧
    (DiveProfile.compute_gue_ascent d cfg = Except.error "Trivial ascent" ↔ d ≤ 0) ∧
    (0 < d →
      (∃ pts, DiveProfile.compute_ssi_ascent d cfg = Except.ok pts) ∧
      (∃ pts, DiveProfile.compute_gue_ascent d cfg = Except.ok pts)) := by
  refine ⟨?_, ?_, ?_⟩
  · constructor
    · intro he
      by_contra hd
      rw [DiveProfile.compute_ssi_ascent, if_neg hd] at he
      exact absurd he (by simp)
    · intro hd
      rw [DiveProfile.compute_ssi_ascent, if_pos hd]
  · constructor
    · intro he
      by_contra hd
      simp only [DiveProfile.compute_gue_ascent] at he
      rw [if_neg hd] at he
      by_cases h3 : d < 3
      · rw [if_pos h3] at he; exact absurd he (by simp)
      · rw [if_neg h3] at he; exact absurd he (by simp)
    · intro hd
      simp only [DiveProfile.compute_gue_ascent]
      rw [if_pos hd]
  · intro hd
    have hd2 : ¬ d ≤ 0 := not_le.mpr hd
    refine ⟨⟨_, by rw [DiveProfile.compute_ssi_ascent, if_neg hd2]⟩, ?_⟩
    by_cases h3 : d < 3
    · exact ⟨_, by simp only [DiveProfile.compute_gue_ascent]; rw [if_neg hd2, if_pos h3]⟩
    · exact ⟨_, by simp only [DiveProfile.compute_gue_ascent]; rw [if_neg hd2, if_neg h3]⟩

/-- Witness for C4 at depth 5: both planners succeed. -/
theorem ascent_error_iff_witness :
    (∃ pts, DiveProfile.compute_ssi_ascent 5 cfgExample = Except.ok pts) ∧
    (∃ pts, DiveProfile.compute_gue_ascent 5 cfgExample = Except.ok pts) :=
  (ascent_error_iff 5 cfgExample).2.2 (by norm_num)

/-- C5: for `0 < depth < 3`, `compute_gue_ascent` returns exactly the start
point and a surface point at `depth/6` minutes, both carrying the
configuration's consumption. -/
theorem gue_shallow_two_points (d : ℚ) (cfg : DiverConfiguration)
    (h0 : 0 < d) (h3 : d < 3) :
    DiveProfile.compute_gue_ascent d cfg =
      Except.ok
        [⟨d, Timedelta.ofSeconds 0, cfg.consumption⟩,
         ⟨0, Timedelta.ofMinutes (d / 6), cfg.consumption⟩] := by
  simp only [DiveProfile.compute_gue_ascent]
  rw [if_neg (not_le.mpr h0), if_pos h3]
  exact congrArg Except.ok
    (congrArg₂ List.cons rfl
      (congrArg₂ List.cons (point_eq rfl (by simp) rfl) rfl))

/-- Witness for C5 at depth 2: surface reached after 20 seconds. -/
theorem gue_shallow_two_points_witness :
    DiveProfile.compute_gue_ascent 2 cfgExample =
      Except.ok
        [⟨2, Timedelta.ofSeconds 0, 15⟩, ⟨0, Timedelta.ofSeconds 20, 15⟩] := by
  have h := gue_shallow_two_points 2 cfgExample (by norm_num) (by norm_num)
  rw [h]
  norm_num [cfgExample, Timedelta.ext_iff]

/-- C7: `ambient_pressure(d)` equals
`water_density * gravity_constant * d * 1e-5 + 1` for every real depth and
never fails; at depth 0 it is exactly 1 bar. -/
theorem ambient_pressure_formula (p : DiveProfile) (d : ℚ) :
    p.ambient_pressure d =
      p.water_density * p.gravity_constant * d * (1 / 100000) + 1 ∧
    p.ambient_pressure 0 = 1 := by
  constructor
  · rfl
  · simp [DiveProfile.ambient_pressure]

/-- C8: with positive water density and gravity constant, `ambient_pressure`
is strictly increasing in depth. -/
theorem ambient_pressure_strict_mono (p : DiveProfile) (d1 d2 : ℚ)
    (hw : 0 < p.water_density) (hg : 0 < p.gravity_constant) (h : d1 < d2) :
    p.ambient_pressure d1 < p.ambient_pressure d2 := by
  simp only [DiveProfile.ambient_pressure]
  have hwg : 0 < p.water_density * p.gravity_constant := mul_pos hw hg
  nlinarith

/-- Witness for C8: with the default constants, pressure at 10 m exceeds
pressure at the surface. -/
theorem ambient_pressure_strict_mono_witness :
    profileExample.ambient_pressure 0 < profileExample.ambient_pressure 10 :=
  ambient_pressure_strict_mono profileExample 0 10
    (by norm_num [profileExample]) (by norm_num [profileExample]) (by norm_num)

/-- C2: for every depth ≥ 3, `compute_gue_ascent` emits the start point at
`(depth, 0)`, the point at stop depth `ceil(depth/6)*3` reached at elapsed
`(depth - ceil(depth/6)*3)/10` minutes, and then, while the stop depth is
positive, a hold point after 0.5 minutes and a point 3 m shallower a further
0.5 minutes later, every point carrying the configuration's consumption. -/
theorem gue_ascent_refines_spec (d : ℚ) (cfg : DiverConfiguration) (h : 3 ≤ d) :
    DiveProfile.compute_gue_ascent d cfg = Except.ok (gueAscentSpec d cfg) :=
  compute_gue_eq_spec d cfg h

/-- Witness for C2 at depth 30. -/
theorem gue_ascent_refines_spec_witness :
    DiveProfile.compute_gue_ascent 30 cfgExample =
      Except.ok (gueAscentSpec 30 cfgExample) :=
  gue_ascent_refines_spec 30 cfgExample (by norm_num)

/-- C3: for depth ≥ 3, `compute_gue_ascent` terminates; its stop loop runs
exactly `⌈depth/6⌉` iterations (two points per iteration on top of the two
initial points), which is at most `⌈depth/6⌉ + 1`, and the final emitted
point has depth ≤ 0. -/
theorem gue_ascent_terminates (d : ℚ) (cfg : DiverConfiguration) (h : 3 ≤ d) :
    ∃ pts, DiveProfile.compute_gue_ascent d cfg = Except.ok pts ∧
      pts.length = 2 + 2 * (⌈d / 6⌉).toNat ∧
      pts.length ≤ 2 + 2 * ((⌈d / 6⌉).toNat + 1) ∧
      ∃ last, pts.getLast? = some last ∧ last.depth ≤ 0 := by
  have hd0 : (0 : ℚ) < d := by linarith
  have h1 : 0 < ⌈d / 6⌉ := Int.ceil_pos.mpr (by positivity)
  have hk : 0 < (⌈d / 6⌉).toNat := by omega
  refine ⟨_, compute_gue_shape d cfg h, ?_, ?_, ?_⟩
  · simp [gueLoop_length]
    omega
  · simp [gueLoop_length]
    omega
  · rw [List.getLast?_cons_cons, List.getLast?_cons,
      gueLoop_getLast cfg.consumption _ _ hk]
    simp only [Option.getD_some]
    exact ⟨_, rfl, le_refl 0⟩

/-- Witness for C3 at depth 30: five loop iterations. -/
theorem gue_ascent_terminates_witness :
    ∃ pts, DiveProfile.compute_gue_ascent 30 cfgExample = Except.ok pts ∧
      pts.length = 2 + 2 * (⌈(30 : ℚ) / 6⌉).toNat ∧
      pts.length ≤ 2 + 2 * ((⌈(30 : ℚ) / 6⌉).toNat + 1) ∧
      ∃ last, pts.getLast? = some last ∧ last.depth ≤ 0 :=
  gue_ascent_terminates 30 cfgExample (by norm_num)

/-- C10: for depth ≥ 3, every point of the GUE ascent from the second onward
has a depth that is an integer multiple of 3 m, and the final point's depth
is exactly 0, never negative. -/
theorem gue_ascent_stop_depths (d : ℚ) (cfg : DiverConfiguration) (h : 3 ≤ d) :
    ∃ pts, DiveProfile.compute_gue_ascent d cfg = Except.ok pts ∧
      (∀ p ∈ pts.tail, ∃ m : ℤ, p.depth = 3 * (m : ℚ)) ∧
      ∃ last, pts.getLast? = some last ∧ last.depth = 0 := by
  have hd0 : (0 : ℚ) < d := by linarith
  have h1 : 0 < ⌈d / 6⌉ := Int.ceil_pos.mpr (by positivity)
  have hk : 0 < (⌈d / 6⌉).toNat := by omega
  refine ⟨_, compute_gue_shape d cfg h, ?_, ?_⟩
  · intro p hp
    simp only [List.tail_cons] at hp
    rcases List.mem_cons.mp hp with hstop | hloop
    · exact ⟨((⌈d / 6⌉).toNat : ℤ), by rw [hstop]; push_cast; ring⟩
    · rw [gueLoop_eq_blocks] at hloop
      simp only [List.mem_flatten, List.mem_map] at hloop
      obtain ⟨lst, ⟨i, hi, rfl⟩, hpl⟩ := hloop
      simp only [List.mem_cons, List.not_mem_nil, or_false] at hpl
      rcases hpl with rfl | rfl
      · exact ⟨((⌈d / 6⌉).toNat : ℤ) - i, by push_cast; ring⟩
      · exact ⟨((⌈d / 6⌉).toNat : ℤ) - i - 1, by push_cast; ring⟩
  · rw [List.getLast?_cons_cons, List.getLast?_cons,
      gueLoop_getLast cfg.consumption _ _ hk]
    simp only [Option.getD_some]
    exact ⟨_, rfl, rfl⟩

/-- Witness for C10 at depth 30. -/
theorem gue_ascent_stop_depths_witness :
    ∃ pts, DiveProfile.compute_gue_ascent 30 cfgExample = Except.ok pts ∧
      (∀ p ∈ pts.tail, ∃ m : ℤ, p.depth = 3 * (m : ℚ)) ∧
      ∃ last, pts.getLast? = some last ∧ last.depth = 0 :=
  gue_ascent_stop_depths 30 cfgExample (by norm_num)

/-- C6: `get_segments` on an N-point profile returns `max(N-1, 0)` segments
in index order, each averaging its two endpoints and lasting their timestamp
delta; for N ≤ 1 it returns the empty sequence without error. -/
theorem get_segments_spec (p : DiveProfile) :
    ((p.get_segments).length : ℤ) = max ((p.profile.length : ℤ) - 1) 0 ∧
    (∀ i, i + 1 < p.profile.length →
      (p.get_segments).getD i default =
        { avg_depth := ((p.profile.getD i default).depth +
            (p.profile.getD (i + 1) default).depth) / 2
          duration := (p.profile.getD (i + 1) default).timestamp.sub
            (p.profile.getD i default).timestamp
          avg_consumption := ((p.profile.getD i default).consumption +
            (p.profile.getD (i + 1) default).consumption) / 2 }) ∧
    (p.profile.length ≤ 1 → p.get_segments = []) := by
  refine ⟨?_, ?_, ?_⟩
  · simp only [DiveProfile.get_segments, List.length_map, List.length_range]
    omega
  · intro i hi
    have hlen : i < p.profile.length - 1 := by omega
    simp only [DiveProfile.get_segments, List.getD_eq_getElem?_getD]
    rw [List.getElem?_eq_getElem (by simpa using hlen)]
    simp only [Option.getD_some, List.getElem_map, List.getElem_range]
    rfl
  · intro h1
    have h0 : p.profile.length - 1 = 0 := by omega
    simp [DiveProfile.get_segments, h0]

/-- Witness for C6: the first segment of the example profile. -/
theorem get_segments_spec_witness :
    (profileExample.get_segments).getD 0 default =
      { avg_depth := ((profileExample.profile.getD 0 default).depth +
          (profileExample.profile.getD 1 default).depth) / 2
        duration := (profileExample.profile.getD 1 default).timestamp.sub
          (profileExample.profile.getD 0 default).timestamp
        avg_consumption := ((profileExample.profile.getD 0 default).consumption +
          (profileExample.profile.getD 1 default).consumption) / 2 } :=
  (get_segments_spec profileExample).2.1 0 (by norm_num [profileExample])

/-- C9: loading a well-formed input mapping yields a profile whose gas
fields equal the input exactly and whose point sequence is the input points
(timestamp = integer key in seconds) re-sorted ascending by timestamp; the
concrete input at offsets 60, 0, 120 yields exactly 3 points in timestamp
order. -/
theorem from_dict_spec (data : ProfileDict) :
    (DiveProfile.from_dict data).gas_volume = data.gas_volume ∧
    (DiveProfile.from_dict data).gas_pressure = data.gas_pressure ∧
    List.Sorted pointLE (DiveProfile.from_dict data).profile ∧
    (DiveProfile.from_dict data).profile.Perm
      (data.profile.map fun e =>
        ⟨e.depth, Timedelta.ofSeconds (e.key : ℚ), e.consumption⟩) ∧
    (DiveProfile.from_dict
        { gas_volume := 12, gas_pressure := 200,
          profile := [⟨60, 10, 18⟩, ⟨0, 0, 15⟩, ⟨120, 0, 12⟩] }).profile =
      [⟨0, Timedelta.ofSeconds 0, 15⟩,
       ⟨10, Timedelta.ofSeconds 60, 18⟩,
       ⟨0, Timedelta.ofSeconds 120, 12⟩] := by
  refine ⟨rfl, rfl, ?_, ?_, ?_⟩
  · exact List.sorted_insertionSort pointLE _
  · exact List.perm_insertionSort pointLE _
  · simp only [DiveProfile.from_dict, List.map_cons, List.map_nil,
      List.insertionSort, List.orderedInsert]
    norm_num [pointLE, Timedelta.ofSeconds]

end DiveProfileCalculator
